import Mathlib

/-
Verification development for the pg_synchronization engine.

Shallow embedding of the execution pipeline: the status controller
(src/sync/status_manager.py, src/models/job_execution_status.py), the
progress bus (src/progress_manager.py), the crypto setup
(src/utils/encryption.py), the cron scheduler (src/scheduler.py), the
orchestrator finalization (src/sync/orchestrator.py), the incremental
query builder (src/sync/sync_engine.py), the two data-transfer
strategies (src/sync/data_manager.py, src/sync/copy_data_manager.py)
and the run-lock entry point (src/sync/executor.py).

Conventions: Python optional strings become Option String, where the
Python truthiness test treats None and the empty string alike; database
reads that can fail are Except values; SQL row values are modelled as
nullable integers (the incremental-field domain the watermark claims
compare on); external database effects (detected columns, MAX queries)
are passed in as parameters.
-/

namespace PgSync

/-- Python truthiness of an optional string: None and "" are falsy. -/
def pyTruthy : Option String → Bool
  | none => false
  | some s => !s.isEmpty

/-- Python `a or b` for optional strings. -/
def pyOr (a b : Option String) : Option String :=
  if pyTruthy a then a else b

/-- Accumulator step for whitespace tokenisation (Python str.split()). -/
def wsSplitAux : List Char → List Char → List String
  | [], acc => if acc.isEmpty then [] else [String.mk acc.reverse]
  | c :: rest, acc =>
    if c.isWhitespace then
      if acc.isEmpty then wsSplitAux rest []
      else String.mk acc.reverse :: wsSplitAux rest []
    else wsSplitAux rest (c :: acc)

/-- Python str.split() with no argument: split on whitespace runs, dropping
empty tokens. -/
def pySplitWs (s : String) : List String :=
  wsSplitAux s.toList []

/-- Python str.strip(): drop leading and trailing whitespace. -/
def pyStrip (s : String) : String :=
  String.mk ((s.toList.dropWhile Char.isWhitespace).reverse.dropWhile Char.isWhitespace).reverse

/-! Enumerations from src/models/backup_jobs.py, src/models/job_execution_logs.py
and src/models/job_execution_status.py. -/

/-- SyncMode (models/backup_jobs.py). -/
inductive SyncMode where
  | FULL
  | INCREMENTAL
  deriving DecidableEq, Repr

/-- ConflictStrategy (models/backup_jobs.py). -/
inductive ConflictStrategy where
  | SKIP
  | REPLACE
  | IGNORE
  | ERROR
  deriving DecidableEq, Repr

/-- IncrementalStrategy (models/backup_jobs.py). -/
inductive IncrementalStrategy where
  | NONE
  | AUTO_ID
  | AUTO_TIMESTAMP
  | CUSTOM_CONDITION
  deriving DecidableEq, Repr

/-- ExecutionMode (models/backup_jobs.py). -/
inductive ExecutionMode where
  | IMMEDIATE
  | SCHEDULED
  deriving DecidableEq, Repr

/-- ExecutionStatus of a run log (models/job_execution_logs.py). -/
inductive ExecutionStatus where
  | RUNNING
  | SUCCESS
  | FAILED
  | CANCELLED
  deriving DecidableEq, Repr

/-- TaskControlStatus of a status row (models/job_execution_status.py). -/
inductive TaskControlStatus where
  | RUNNING
  | STOP_REQUESTED
  | STOPPED
  | COMPLETED
  | FAILED
  deriving DecidableEq, Repr

/-- The terminal control states of §4.4. -/
def TaskControlStatus.isTerminal : TaskControlStatus → Bool
  | .STOPPED => true
  | .COMPLETED => true
  | .FAILED => true
  | _ => false

/-! StatusController: src/sync/status_manager.py and the model methods in
src/models/job_execution_status.py. -/

/-- Database error token for modelled fallible reads. -/
abbrev DbErr := String

/-- StatusManager.check_cancellation_requested (status_manager.py lines 64-76).
The argument models the outcome of the single-column read: a read error, or
the scalar result (None for a missing row or NULL flag, per .scalar()).
The code returns `result is True` and maps any exception to False. -/
def checkCancellationRequested (queryResult : Except DbErr (Option Bool)) : Bool :=
  match queryResult with
  | .error _ => false
  | .ok r => r == some true

/-- The mutable fields of a JobExecutionStatus row touched by transitions. -/
structure StatusRecord where
  status : TaskControlStatus
  is_cancellation_requested : Bool
  progress_percentage : Int
  deriving DecidableEq, Repr

/-- JobExecutionStatus.request_cancellation (job_execution_status.py 46-49). -/
def StatusRecord.requestCancellation (r : StatusRecord) : StatusRecord :=
  { r with is_cancellation_requested := true, status := .STOP_REQUESTED }

/-- JobExecutionStatus.mark_completed (job_execution_status.py 51-54). -/
def StatusRecord.markCompleted (r : StatusRecord) : StatusRecord :=
  { r with status := .COMPLETED, progress_percentage := 100 }

/-- JobExecutionStatus.mark_failed (job_execution_status.py 56-58). -/
def StatusRecord.markFailed (r : StatusRecord) : StatusRecord :=
  { r with status := .FAILED }

/-- JobExecutionStatus.mark_stopped (job_execution_status.py 60-62). -/
def StatusRecord.markStopped (r : StatusRecord) : StatusRecord :=
  { r with status := .STOPPED }

/-- Shared shape of the StatusManager transition methods (status_manager.py
78-186): look the row up by id; a missing row returns False with no write,
an existing row gets the model transition applied and committed, returning
True. The row argument models the lookup result. -/
def smTransition (f : StatusRecord → StatusRecord) :
    Option StatusRecord → Option StatusRecord × Bool
  | none => (none, false)
  | some r => (some (f r), true)

/-- StatusManager.request_cancellation (status_manager.py 78-98). -/
def smRequestCancellation (row : Option StatusRecord) : Option StatusRecord × Bool :=
  smTransition StatusRecord.requestCancellation row

/-- StatusManager.mark_completed (status_manager.py 100-120). -/
def smMarkCompleted (row : Option StatusRecord) : Option StatusRecord × Bool :=
  smTransition StatusRecord.markCompleted row

/-- StatusManager.mark_failed (status_manager.py 122-142). -/
def smMarkFailed (row : Option StatusRecord) : Option StatusRecord × Bool :=
  smTransition StatusRecord.markFailed row

/-- StatusManager.mark_stopped (status_manager.py 144-164). -/
def smMarkStopped (row : Option StatusRecord) : Option StatusRecord × Bool :=
  smTransition StatusRecord.markStopped row

/-! ProgressBus: src/progress_manager.py. Client queues are identified by
numeric ids; a progress event is a JSON object modelled as key-value pairs. -/

/-- A progress event payload. -/
abbrev ProgressEvent := List (String × String)

/-- Association-list lookup keyed by job id. -/
def alGet {α : Type} (l : List (Nat × α)) (k : Nat) : Option α :=
  (l.find? (fun p => p.1 == k)).map (fun p => p.2)

/-- Association-list upsert keyed by job id. -/
def alSet {α : Type} (l : List (Nat × α)) (k : Nat) (v : α) : List (Nat × α) :=
  match l with
  | [] => [(k, v)]
  | p :: rest => if p.1 == k then (k, v) :: rest else p :: alSet rest k v

/-- Association-list delete keyed by job id. -/
def alDel {α : Type} (l : List (Nat × α)) (k : Nat) : List (Nat × α) :=
  l.filter (fun p => p.1 != k)

/-- The ProgressManager state: clients maps a job id to its set of
subscriber queues, current_progress holds the latest event per job id. -/
structure ProgressState where
  clients : List (Nat × List Nat)
  current_progress : List (Nat × ProgressEvent)
  deriving DecidableEq, Repr

/-- ProgressManager.add_client (progress_manager.py 19-24). -/
def addClient (st : ProgressState) (jobId qid : Nat) : ProgressState :=
  let qs := (alGet st.clients jobId).getD []
  let qs2 := if qs.contains qid then qs else qs ++ [qid]
  { st with clients := alSet st.clients jobId qs2 }

/-- ProgressManager.remove_client (progress_manager.py 26-34): discard the
queue; when the job's client set becomes empty, delete the entry and pop
the job's progress snapshot. -/
def removeClient (st : ProgressState) (jobId qid : Nat) : ProgressState :=
  match alGet st.clients jobId with
  | none => st
  | some qs =>
    let qs2 := qs.erase qid
    if qs2.isEmpty then
      { clients := alDel st.clients jobId,
        current_progress := alDel st.current_progress jobId }
    else
      { st with clients := alSet st.clients jobId qs2 }

/-- ProgressManager.update_progress (progress_manager.py 36-48): store the
snapshot. (Broadcasting to subscriber queues only mutates the external
asyncio queues and is not part of this state.) -/
def updateProgress (st : ProgressState) (jobId : Nat) (ev : ProgressEvent) : ProgressState :=
  { st with current_progress := alSet st.current_progress jobId ev }

/-- ProgressManager.get_current_progress (progress_manager.py 50-52):
the stored snapshot, defaulting to the empty event. -/
def getCurrentProgress (st : ProgressState) (jobId : Nat) : ProgressEvent :=
  (alGet st.current_progress jobId).getD []

/-! Crypto setup: src/utils/encryption.py lines 14-35. -/

/-- Which key the constructed Fernet cipher ends up using. -/
inductive CipherKeySource where
  | configured
  | generated
  deriving DecidableEq, Repr

/-- EncryptionManager.__init__ (encryption.py 14-35). keyValid models whether
the configured ENCRYPTION_KEY is accepted by the Fernet constructor. On an
invalid key the inner bare except generates a fresh key and continues; the
result is the key the cipher uses, an error value would model the outer
re-raise path. -/
def encryptionManagerSetup (keyValid : Bool) : Except String CipherKeySource :=
  if keyValid then .ok .configured else .ok .generated

/-! Scheduler: src/scheduler.py lines 93-176. -/

/-- The dict returned by SchedulerManager._parse_cron_expression. -/
structure CronFields where
  minute : String
  hour : String
  day : String
  month : String
  day_of_week : String
  deriving DecidableEq, Repr

/-- SchedulerManager._parse_cron_expression (scheduler.py 160-176): strip,
split on whitespace, demand exactly 5 parts or raise ValueError. -/
def parseCronExpression (cronExpr : String) : Except String CronFields :=
  let parts := pySplitWs (pyStrip cronExpr)
  if h : parts.length = 5 then
    .ok { minute := parts.get ⟨0, by omega⟩
          hour := parts.get ⟨1, by omega⟩
          day := parts.get ⟨2, by omega⟩
          month := parts.get ⟨3, by omega⟩
          day_of_week := parts.get ⟨4, by omega⟩ }
  else
    .error "Cron expression must have 5 parts"

/-- The job fields SchedulerManager.add_job inspects. -/
structure SchedJob where
  execution_mode : ExecutionMode
  cron_expression : Option String
  deriving DecidableEq, Repr

/-- Outcome of SchedulerManager.add_job. -/
inductive AddJobResult where
  | skippedMode
  | skippedNoCron
  | registered (fields : CronFields)
  | raised (msg : String)
  deriving DecidableEq, Repr

/-- SchedulerManager.add_job (scheduler.py 93-128): non-SCHEDULED jobs are
skipped; a missing or blank cron expression is skipped with a warning; then
the cron expression is parsed, a parse failure being logged and re-raised. -/
def addJob (job : SchedJob) : AddJobResult :=
  if job.execution_mode ≠ ExecutionMode.SCHEDULED then
    .skippedMode
  else if !(pyTruthy job.cron_expression && pyTruthy (job.cron_expression.map pyStrip)) then
    .skippedNoCron
  else
    match parseCronExpression (job.cron_expression.getD "") with
    | .ok f => .registered f
    | .error m => .raised m

/-! Orchestrator finalization: src/sync/orchestrator.py lines 55-80, 148-165. -/

/-- The JobExecutionLog fields written by finalization. -/
structure LogEntry where
  status : ExecutionStatus
  start_time : Option Nat
  end_time : Option Nat
  duration_seconds : Option Int
  error_message : Option String
  error_traceback : Option String
  deriving DecidableEq, Repr

/-- The BackupJob fields written by finalization. -/
structure JobRow where
  last_run_at : Option Nat
  deriving DecidableEq, Repr

/-- Log entry plus job row, the state SyncEngine._finalize_execution writes. -/
structure EngineState where
  log_entry : LogEntry
  job : JobRow
  deriving DecidableEq, Repr

/-- SyncEngine._finalize_execution (orchestrator.py 148-165): set the log
status, end time and duration, record the error on non-success, and set
Job.last_run_at, all committed together. Times are modelled as a single
now value. -/
def finalizeExecution (st : ExecutionStatus) (message : String)
    (errTrace : Option String) (now : Nat) (s : EngineState) : EngineState :=
  let le := s.log_entry
  let le := { le with
      status := st
      end_time := some now
      duration_seconds := le.start_time.map (fun t0 => (now : Int) - (t0 : Int)) }
  let le := if st ≠ ExecutionStatus.SUCCESS then
      { le with error_message := some message, error_traceback := errTrace }
    else le
  { log_entry := le, job := { last_run_at := some now } }

/-- How a run of SyncEngine.execute ends. -/
inductive RunOutcome where
  | success
  | cancelled (msg : String)
  | failed (msg : String) (trace : String)
  deriving DecidableEq, Repr

/-- The terminal dispatch of SyncEngine.execute (orchestrator.py 55-80):
each branch calls _finalize_execution with the matching status. -/
def executeFinalize (o : RunOutcome) (now : Nat) (s : EngineState) : EngineState :=
  match o with
  | .success => finalizeExecution .SUCCESS "Sync completed successfully." none now s
  | .cancelled m => finalizeExecution .CANCELLED m none now s
  | .failed m tb => finalizeExecution .FAILED m (some tb) now s

/-! Incremental query builder: src/sync/sync_engine.py lines 1067-1135 (the
richer engine copy, duplicated at src/sync_engine.py lines 639-707). The
catalog-driven helpers _detect_id_field, _detect_timestamp_field and the
destination MAX query inside _get_last_sync_value are source/destination
database reads; their results are passed in as parameters. -/

/-- The job fields _build_sync_query inspects. -/
structure QueryJob where
  sync_mode : SyncMode
  where_condition : Option String
  deriving DecidableEq, Repr

/-- The JobTargetTable fields _build_sync_query inspects. -/
structure QueryTable where
  schema_name : String
  table_name : String
  incremental_strategy : IncrementalStrategy
  incremental_field : Option String
  custom_condition : Option String
  last_sync_value : Option String
  deriving DecidableEq, Repr

/-- SyncEngine._get_last_sync_value (sync/sync_engine.py 1225-1264): the
stored last_sync_value when truthy, else the destination-side
MAX(field) query result (none for an empty table or a read error). -/
def getLastSyncValue (tt : QueryTable) (destMax : Option String) : Option String :=
  if pyTruthy tt.last_sync_value then tt.last_sync_value else destMax

/-- The incremental block of _build_sync_query (sync/sync_engine.py
1086-1121): the optional predicate it contributes and the ORDER BY suffix. -/
def incrementalClause (job : QueryJob) (tt : QueryTable)
    (detectedIdField detectedTsField destMax : Option String) :
    Option String × String :=
  if job.sync_mode = SyncMode.INCREMENTAL ∧
      tt.incremental_strategy ≠ IncrementalStrategy.NONE then
    match tt.incremental_strategy with
    | .CUSTOM_CONDITION =>
      if pyTruthy tt.custom_condition then (tt.custom_condition, "") else (none, "")
    | .AUTO_ID =>
      let idf := pyOr tt.incremental_field detectedIdField
      if pyTruthy idf then
        let f := idf.getD ""
        let lv := getLastSyncValue tt destMax
        let cond := if pyTruthy lv then f ++ " > " ++ lv.getD ""
          else f ++ " IS NOT NULL"
        (some cond, " ORDER BY " ++ f)
      else (none, "")
    | .AUTO_TIMESTAMP =>
      let tsf := pyOr tt.incremental_field detectedTsField
      if pyTruthy tsf then
        let f := tsf.getD ""
        let lv := getLastSyncValue tt destMax
        let cond := if pyTruthy lv then f ++ " > \x27" ++ lv.getD "" ++ "\x27"
          else f ++ " >= NOW() - INTERVAL \x2724 hours\x27"
        (some cond, " ORDER BY " ++ f)
      else (none, "")
    | .NONE => (none, "")
  else (none, "")

/-- Python " AND ".join over a condition list. -/
def joinAnd : List String → String
  | [] => ""
  | [c] => c
  | c :: rest => c ++ " AND " ++ joinAnd rest

/-- SyncEngine._build_sync_query (sync/sync_engine.py 1067-1135): base
SELECT, AND-joined conditions from the incremental clause and the stripped
global WHERE, then the ORDER BY suffix. -/
def buildSyncQuery (job : QueryJob) (tt : QueryTable)
    (detectedIdField detectedTsField destMax : Option String) : String :=
  let base := "SELECT * FROM " ++ tt.schema_name ++ "." ++ tt.table_name
  let ic := incrementalClause job tt detectedIdField detectedTsField destMax
  let conds := ic.1.toList ++
    (if pyTruthy (job.where_condition.map pyStrip) then
      ["(" ++ pyStrip (job.where_condition.getD "") ++ ")"]
    else [])
  if conds.isEmpty then base ++ ic.2
  else base ++ " WHERE " ++ joinAnd conds ++ ic.2

/-! DataTransfer strategies: src/sync/data_manager.py (row-batch INSERT) and
src/sync/copy_data_manager.py (COPY). Rows are sequences of named nullable
integer values; the destination table carries at most one unique-indexed
column (on which conflicts are detected) and its primary-key columns. -/

/-- A source row: column name to nullable value. -/
abbrev Row := List (String × Option Int)

/-- record[field] access: none when the column is absent, some none when it
holds NULL. -/
def rowLookup (r : Row) (k : String) : Option (Option Int) :=
  (r.find? (fun p => p.1 == k)).map (fun p => p.2)

/-- DataManager._update_max_value (data_manager.py 216-224): keep the running
maximum of the incremental field, ignoring a falsy field name, an absent
column and NULL values. -/
def updateMaxValue (record : Row) (field : Option String) (currentMax : Option Int) :
    Option Int :=
  if !(pyTruthy field) then currentMax
  else
    match rowLookup record (field.getD "") with
    | none => currentMax
    | some none => currentMax
    | some (some v) =>
      match currentMax with
      | none => some v
      | some m => if v > m then some v else some m

/-- Destination table state: its rows, the unique-indexed column conflicts
are detected on, and its primary-key columns. -/
structure DestTable where
  rows : List Row
  uniqueKey : Option String
  primaryKeys : List String
  deriving DecidableEq, Repr

/-- Whether inserting r violates the destination's unique index. -/
def keyConflict (dt : DestTable) (r : Row) : Bool :=
  match dt.uniqueKey with
  | none => false
  | some k =>
    match rowLookup r k with
    | some (some v) => dt.rows.any (fun r0 => rowLookup r0 k == some (some v))
    | _ => false

/-- Append a row to the destination table. -/
def insertRowInto (dt : DestTable) (r : Row) : DestTable :=
  { dt with rows := dt.rows ++ [r] }

/-- Errors a transfer can raise: a conflict aborting a batch transaction, or
the InterruptedError raised on cancellation. -/
inductive SyncErr where
  | conflict
  | cancelled
  deriving DecidableEq, Repr

/-- ERROR strategy (data_manager.py 152-154): plain multi-row insert; any
conflict aborts the whole batch, the transaction rolls back. -/
def insertBatchStrict (dt : DestTable) : List Row → Except SyncErr DestTable
  | [] => .ok dt
  | r :: rest =>
    if keyConflict dt r then .error .conflict
    else insertBatchStrict (insertRowInto dt r) rest

/-- IGNORE strategy (data_manager.py 124-128): ON CONFLICT DO NOTHING drops
each conflicting row and keeps the rest. -/
def insertBatchIgnoring (dt : DestTable) : List Row → DestTable
  | [] => dt
  | r :: rest =>
    if keyConflict dt r then insertBatchIgnoring dt rest
    else insertBatchIgnoring (insertRowInto dt r) rest

/-- DataManager._insert_with_skip (data_manager.py 156-170): row-by-row
insert with each exception caught and counted as skipped. All rows execute
inside the single transaction _batch_insert opens, so on PostgreSQL the
first unique violation aborts that transaction and every later statement
fails too (InFailedSqlTransaction, also caught and counted as skipped).
Returns the in-transaction table state reached by the statements that
executed, with the successful_inserts and skipped_records counters the
code accumulates; commit or rollback of that state happens at the caller's
transaction exit. -/
def insertWithSkip (dt : DestTable) : List Row → DestTable × Nat × Nat
  | [] => (dt, 0, 0)
  | r :: rest =>
    if keyConflict dt r then
      (dt, 0, rest.length + 1)
    else
      let res := insertWithSkip (insertRowInto dt r) rest
      (res.1, res.2.1 + 1, res.2.2)

/-- Rows agree on every primary-key column. -/
def pkMatches (pks : List String) (a b : Row) : Bool :=
  pks.all (fun k => rowLookup a k == rowLookup b k)

/-- ON CONFLICT (pk) DO UPDATE of the non-pk columns from the excluded row. -/
def mergeNonPk (pks : List String) (old new : Row) : Row :=
  old.map (fun p =>
    if pks.contains p.1 then p
    else
      match rowLookup new p.1 with
      | some v => (p.1, v)
      | none => p)

/-- REPLACE strategy upsert of one row: update the pk-matching row if one
exists, otherwise a plain insert (which can still hit the unique index). -/
def upsertRow (pks : List String) (dt : DestTable) (r : Row) : Except SyncErr DestTable :=
  if dt.rows.any (fun r0 => pkMatches pks r0 r) then
    .ok { dt with rows := dt.rows.map (fun r0 =>
      if pkMatches pks r0 r then mergeNonPk pks r0 r else r0) }
  else if keyConflict dt r then .error .conflict
  else .ok (insertRowInto dt r)

/-- REPLACE strategy over a batch (data_manager.py 130-150). -/
def upsertBatch (pks : List String) (dt : DestTable) : List Row → Except SyncErr DestTable
  | [] => .ok dt
  | r :: rest =>
    match upsertRow pks dt r with
    | .error e => .error e
    | .ok dt2 => upsertBatch pks dt2 rest

/-- DataManager._batch_insert (data_manager.py 101-154): the whole batch
runs in one conn.begin() transaction (lines 110-119); dispatch per
conflict strategy; an empty batch is a no-op; REPLACE degrades to IGNORE
when the table has no primary key. On the SKIP path the per-row
exceptions are swallowed, so the block exits normally and issues COMMIT;
but if any statement failed the transaction is already aborted and that
COMMIT performs a rollback, discarding every insert of the batch. The two
counters are the successful/skipped counts of the SKIP path (the other
strategies keep no such counters). The JSON preprocessing of
_preprocess_data is the identity on these scalar rows. -/
def batchInsert (strategy : ConflictStrategy) (dt : DestTable) (data : List Row) :
    Except SyncErr (DestTable × Nat × Nat) :=
  if data.isEmpty then .ok (dt, 0, 0)
  else
    match strategy with
    | .SKIP =>
      let res := insertWithSkip dt data
      if res.2.2 = 0 then .ok (res.1, res.2.1, res.2.2)
      else .ok (dt, res.2.1, res.2.2)
    | .IGNORE => .ok (insertBatchIgnoring dt data, 0, 0)
    | .REPLACE =>
      if dt.primaryKeys.isEmpty then .ok (insertBatchIgnoring dt data, 0, 0)
      else
        match upsertBatch dt.primaryKeys dt data with
        | .error e => .error e
        | .ok dt2 => .ok (dt2, 0, 0)
    | .ERROR =>
      match insertBatchStrict dt data with
      | .error e => .error e
      | .ok dt2 => .ok (dt2, 0, 0)

/-- The job fields the data managers inspect. -/
structure DmJob where
  sync_mode : SyncMode
  conflict_strategy : ConflictStrategy
  deriving DecidableEq, Repr

/-- The TargetTable fields the data managers read and write. The watermark
last_sync_value is stored by the code as str(max) of the tracked value; it
is modelled here as that value. -/
structure TableState where
  incremental_strategy : IncrementalStrategy
  incremental_field : Option String
  last_sync_value : Option Int
  deriving DecidableEq, Repr

/-- Result of a streaming loop: the destination state, or the error raised
together with the destination state at that moment (batches already
committed persist; the failed batch transaction rolled back). -/
inductive LoopRes where
  | ok (dt : DestTable) (maxV : Option Int) (synced ins sk : Nat)
  | err (e : SyncErr) (dt : DestTable)
  deriving DecidableEq, Repr

/-- Batch size of the row-batch INSERT strategy (data_manager.py line 32). -/
def dmBatchSize : Nat := 1000

/-- The streaming loop of DataManager.sync_table_data (data_manager.py
47-74): accumulate rows into batches, track the incremental maximum per
row, poll cancellation before flushing each full batch and before the
final partial batch, and add each flushed batch's full length to
records_synced. cancel is indexed by the number of checks made so far. -/
def syncLoop (strat : ConflictStrategy) (field : Option String)
    (cancel : Nat → Bool) (rows : List Row) (batch : List Row)
    (maxV : Option Int) (dt : DestTable) (synced ins sk checks : Nat) : LoopRes :=
  match rows with
  | [] =>
    if batch.isEmpty then .ok dt maxV synced ins sk
    else if cancel checks then .err .cancelled dt
    else
      match batchInsert strat dt batch with
      | .error e => .err e dt
      | .ok res => .ok res.1 maxV (synced + batch.length) (ins + res.2.1) (sk + res.2.2)
  | r :: rest =>
    let batch2 := batch ++ [r]
    let maxV2 := updateMaxValue r field maxV
    if dmBatchSize ≤ batch2.length then
      if cancel checks then .err .cancelled dt
      else
        match batchInsert strat dt batch2 with
        | .error e => .err e dt
        | .ok res =>
          syncLoop strat field cancel rest [] maxV2 res.1
            (synced + batch2.length) (ins + res.2.1) (sk + res.2.2) (checks + 1)
    else
      syncLoop strat field cancel rest batch2 maxV2 dt synced ins sk checks

/-- Outcome of a successful table sync. -/
structure SyncOutcome where
  dest : DestTable
  table : TableState
  recordsSynced : Nat
  insertedTotal : Nat
  skippedTotal : Nat
  deriving DecidableEq, Repr

/-- Result of a table sync: success, or the raised error with the
destination state at failure and the table row (whose watermark a failure
leaves untouched). -/
inductive SyncResult where
  | ok (o : SyncOutcome)
  | err (e : SyncErr) (dest : DestTable) (table : TableState)
  deriving DecidableEq, Repr

/-- DataManager.sync_table_data (data_manager.py 27-81): truncate on FULL
mode or strategy NONE, stream the query result through the batch loop, and
only after all batches succeed persist str(max) as the new last_sync_value
when a maximum was seen. sourceRows models the extraction query's result
stream. -/
def syncTableData (job : DmJob) (tt : TableState) (sourceRows : List Row)
    (dest : DestTable) (cancel : Nat → Bool) : SyncResult :=
  let dt0 := if job.sync_mode = SyncMode.FULL ∨
      tt.incremental_strategy = IncrementalStrategy.NONE then
      { dest with rows := [] }
    else dest
  match syncLoop job.conflict_strategy tt.incremental_field cancel
      sourceRows [] none dt0 0 0 0 0 with
  | .err e d => .err e d tt
  | .ok d maxV synced ins sk =>
    let tt2 := match maxV with
      | none => tt
      | some v => { tt with last_sync_value := some v }
    .ok ⟨d, tt2, synced, ins, sk⟩

/-- Batch size of the COPY strategy (copy_data_manager.py line 31). -/
def copyBatchSize : Nat := 50000

/-- CopyDataManager._update_max_sync_value (copy_data_manager.py 300-304):
the body returns current_max unchanged (its comment calls the
implementation simplified). -/
def copyUpdateMaxSyncValue (_record : Row) (currentMax : Option Int) : Option Int :=
  currentMax

/-- The streaming loop of CopyDataManager._execute_copy_transfer
(copy_data_manager.py 71-126): cancellation is checked per row, the
per-batch maximum runs through the stub above, each full batch goes through
COPY (a unique violation fails the COPY transaction, which rolls back and
re-raises even after the INSERT fallback). -/
def copySyncLoop (cancel : Nat → Bool) (rows : List Row) (batch : List Row)
    (maxV : Option Int) (dt : DestTable) (total checks : Nat) : LoopRes :=
  match rows with
  | [] =>
    if batch.isEmpty then .ok dt maxV total 0 0
    else
      match insertBatchStrict dt batch with
      | .error e => .err e dt
      | .ok dt2 => .ok dt2 maxV (total + batch.length) 0 0
  | r :: rest =>
    if cancel checks then .err .cancelled dt
    else
      let batch2 := batch ++ [r]
      let maxV2 := copyUpdateMaxSyncValue r maxV
      if copyBatchSize ≤ batch2.length then
        match insertBatchStrict dt batch2 with
        | .error e => .err e dt
        | .ok dt2 => copySyncLoop cancel rest [] maxV2 dt2 (total + batch2.length) (checks + 1)
      else copySyncLoop cancel rest batch2 maxV2 dt total (checks + 1)

/-- CopyDataManager.sync_table_data (copy_data_manager.py 35-69): truncate
on FULL mode or strategy NONE, return 0 for an empty extraction, else run
the COPY loop. No statement in this manager ever writes
TargetTable.last_sync_value, so the returned table row is the input one. -/
def copySyncTableData (job : DmJob) (tt : TableState) (sourceRows : List Row)
    (dest : DestTable) (cancel : Nat → Bool) : SyncResult :=
  let dt0 := if job.sync_mode = SyncMode.FULL ∨
      tt.incremental_strategy = IncrementalStrategy.NONE then
      { dest with rows := [] }
    else dest
  if sourceRows.length = 0 then .ok ⟨dt0, tt, 0, 0, 0⟩
  else
    match copySyncLoop cancel sourceRows [] none dt0 0 0 with
    | .err e d => .err e d tt
    | .ok d _maxV total ins sk => .ok ⟨d, tt, total, ins, sk⟩

/-- The per-table slice of SyncEngine.execute / _perform_sync
(orchestrator.py 55-80, 113-146) for a single-table job: a successful sync
yields a SUCCESS run log carrying records_transferred; an InterruptedError
yields CANCELLED, any other error FAILED, with records_transferred never
set on the failure paths. -/
def runOneTable (job : DmJob) (tt : TableState) (sourceRows : List Row)
    (dest : DestTable) (cancel : Nat → Bool) : ExecutionStatus × Option Nat :=
  match syncTableData job tt sourceRows dest cancel with
  | .ok o => (.SUCCESS, some o.recordsSynced)
  | .err .cancelled _ _ => (.CANCELLED, none)
  | .err .conflict _ _ => (.FAILED, none)

/-- The running maximum of the incremental field over an emitted row list,
folded exactly as the streaming loop folds _update_max_value. -/
def emittedMax (rows : List Row) (field : Option String) : Option Int :=
  rows.foldl (fun m r => updateMaxValue r field m) none

/-! Run-lock entry point: execute_sync_job (src/sync/executor.py 18-55).
The lock step runs SELECT ... FOR UPDATE NOWAIT, the is_running check and
the flag write inside one database transaction, so it is one atomic step of
the interleaving model; a lock refusal (nowait) and an is_running=True read
both take the early-return branch. A process that acquires the lock then
constructs SyncEngine (which creates the RunLog row), executes, and in its
finally block clears is_running. -/

/-- Control points of one execute_sync_job invocation. -/
inductive LockPC where
  | start
  | crit
  | early
  | finished
  deriving DecidableEq, Repr

/-- One invocation: its control point and whether it created a RunLog. -/
structure Proc where
  pc : LockPC
  createdLog : Bool
  deriving DecidableEq, Repr

/-- The shared job row flag plus two concurrent invocations. -/
structure LockSys where
  is_running : Bool
  p1 : Proc
  p2 : Proc
  deriving DecidableEq, Repr

/-- Atomic steps of one invocation against the shared is_running flag. -/
inductive ProcStep : Bool → Proc → Bool → Proc → Prop where
  | acquire (p : Proc) (h : p.pc = .start) :
      ProcStep false p true { pc := .crit, createdLog := true }
  | busy (p : Proc) (h : p.pc = .start) :
      ProcStep true p true { p with pc := .early }
  | release (b : Bool) (p : Proc) (h : p.pc = .crit) :
      ProcStep b p false { p with pc := .finished }

/-- Interleaving of the two invocations. -/
inductive SysStep : LockSys → LockSys → Prop where
  | left (s : LockSys) (b : Bool) (p : Proc)
      (h : ProcStep s.is_running s.p1 b p) :
      SysStep s { is_running := b, p1 := p, p2 := s.p2 }
  | right (s : LockSys) (b : Bool) (p : Proc)
      (h : ProcStep s.is_running s.p2 b p) :
      SysStep s { is_running := b, p1 := s.p1, p2 := p }

/-- Both invocations about to run against a job that is not running. -/
def lockInit : LockSys :=
  { is_running := false
    p1 := { pc := .start, createdLog := false }
    p2 := { pc := .start, createdLog := false } }

/-- States reachable from lockInit by interleaved steps. -/
inductive LockReach : LockSys → Prop where
  | init : LockReach lockInit
  | step (s t : LockSys) (hs : LockReach s) (h : SysStep s t) : LockReach t

/-- Inductive invariant: a critical invocation holds the flag, the critical
section is mutually exclusive, and an invocation that has not passed the
lock step never created a RunLog. -/
def lockInv (s : LockSys) : Prop :=
  ((s.p1.pc = .crit ∨ s.p2.pc = .crit) → s.is_running = true) ∧
  ¬(s.p1.pc = .crit ∧ s.p2.pc = .crit) ∧
  (s.p1.pc = .early ∨ s.p1.pc = .start → s.p1.createdLog = false) ∧
  (s.p2.pc = .early ∨ s.p2.pc = .start → s.p2.createdLog = false)

/-! Theorems. -/

/-- Deleting a key from an association list makes its lookup fail. -/
theorem alGet_alDel {α : Type} (l : List (Nat × α)) (k : Nat) :
    alGet (alDel l k) k = none := by
  have hf : List.find? (fun p => p.1 == k) (l.filter (fun p => p.1 != k)) = none := by
    rw [List.find?_eq_none]
    intro x hx
    have hx2 := (List.mem_filter.mp hx).2
    simpa using hx2
  simp [alGet, alDel, hf]

/-- The lock invariant holds initially. -/
theorem lockInv_init : lockInv lockInit := by
  simp [lockInv, lockInit]

/-- The lock invariant is preserved by every interleaved step. -/
theorem lockInv_step (s t : LockSys) (h : lockInv s) (hs : SysStep s t) :
    lockInv t := by
  obtain ⟨run, q1, q2⟩ := s
  obtain ⟨h1, h2, h3, h4⟩ := h
  cases hs with
  | left b p hp =>
    cases hp with
    | acquire hq =>
      refine ⟨fun _ => rfl, ?_, ?_, ?_⟩
      · rintro ⟨-, hc2⟩
        simpa using h1 (Or.inr hc2)
      · intro hc; rcases hc with hc | hc <;> simp at hc
      · exact h4
    | busy hq =>
      rename_i hq
      refine ⟨fun _ => rfl, ?_, ?_, ?_⟩
      · rintro ⟨hc1, -⟩
        simp at hc1
      · intro _; exact h3 (Or.inr hq)
      · exact h4
    | release hq =>
      rename_i hq
      refine ⟨?_, ?_, ?_, ?_⟩
      · intro hc
        rcases hc with hc | hc
        · simp at hc
        · exact absurd ⟨hq, hc⟩ h2
      · rintro ⟨hc1, -⟩
        simp at hc1
      · intro hc; rcases hc with hc | hc <;> simp at hc
      · exact h4
  | right b p hp =>
    cases hp with
    | acquire hq =>
      refine ⟨fun _ => rfl, ?_, ?_, ?_⟩
      · rintro ⟨hc1, -⟩
        simpa using h1 (Or.inl hc1)
      · exact h3
      · intro hc; rcases hc with hc | hc <;> simp at hc
    | busy hq =>
      rename_i hq
      refine ⟨fun _ => rfl, ?_, ?_, ?_⟩
      · rintro ⟨-, hc2⟩
        simp at hc2
      · exact h3
      · intro _; exact h4 (Or.inr hq)
    | release hq =>
      rename_i hq
      refine ⟨?_, ?_, ?_, ?_⟩
      · intro hc
        rcases hc with hc | hc
        · exact absurd ⟨hc, hq⟩ h2
        · simp at hc
      · rintro ⟨-, hc2⟩
        simp at hc2
      · exact h3
      · intro hc; rcases hc with hc | hc <;> simp at hc

/-- Every reachable state satisfies the lock invariant. -/
theorem lockInv_of_reach (s : LockSys) (h : LockReach s) : lockInv s := by
  induction h with
  | init => exact lockInv_init
  | step s t hs hstep ih => exact lockInv_step s t ih hstep

/-- _update_max_value never loses a maximum already present: a some input
yields a some output at least as large. -/
theorem updateMaxValue_some_le (r : Row) (field : Option String) (a : Int)
    (m : Option Int) (h : m = some a) :
    ∃ b, updateMaxValue r field m = some b ∧ a ≤ b := by
  subst h
  by_cases hf : pyTruthy field
  · rcases hrl : rowLookup r (field.getD "") with _ | w
    · exact ⟨a, by simp [updateMaxValue, hf, hrl], le_refl a⟩
    · rcases w with _ | w
      · exact ⟨a, by simp [updateMaxValue, hf, hrl], le_refl a⟩
      · by_cases hgt : w > a
        · exact ⟨w, by simp [updateMaxValue, hf, hrl, hgt], le_of_lt hgt⟩
        · exact ⟨a, by simp [updateMaxValue, hf, hrl, hgt], le_refl a⟩
  · exact ⟨a, by simp [updateMaxValue, hf], le_refl a⟩

/-- _update_max_value on a row whose incremental field holds v returns a
maximum that is at least v. -/
theorem updateMaxValue_ge_val (r : Row) (field : Option String) (m : Option Int)
    (v : Int) (hf : pyTruthy field = true)
    (hv : rowLookup r (field.getD "") = some (some v)) :
    ∃ b, updateMaxValue r field m = some b ∧ v ≤ b := by
  rcases m with _ | a
  · exact ⟨v, by simp [updateMaxValue, hf, hv], le_refl v⟩
  · by_cases hgt : v > a
    · exact ⟨v, by simp [updateMaxValue, hf, hv, hgt], le_refl v⟩
    · exact ⟨a, by simp [updateMaxValue, hf, hv, hgt], le_of_not_lt hgt⟩

/-- Folding _update_max_value preserves a lower bound already reached. -/
theorem foldl_max_some_le (rows : List Row) (field : Option String) :
    ∀ (m : Option Int) (a : Int), m = some a →
      ∃ b, rows.foldl (fun acc r => updateMaxValue r field acc) m = some b ∧ a ≤ b := by
  induction rows with
  | nil => intro m a h; exact ⟨a, by simpa using h, le_refl a⟩
  | cons r0 rest ih =>
    intro m a h
    obtain ⟨b1, hb1, hab1⟩ := updateMaxValue_some_le r0 field a m h
    obtain ⟨b, hb, hb1b⟩ := ih (updateMaxValue r0 field m) b1 hb1
    exact ⟨b, by simpa using hb, le_trans hab1 hb1b⟩

/-- The folded maximum dominates every non-null incremental-field value of
the rows folded over. -/
theorem foldl_max_ge (rows : List Row) (field : Option String) (r : Row)
    (v : Int) (hr : r ∈ rows) (hf : pyTruthy field = true)
    (hv : rowLookup r (field.getD "") = some (some v)) :
    ∀ m, ∃ b, rows.foldl (fun acc r2 => updateMaxValue r2 field acc) m = some b ∧
      v ≤ b := by
  induction rows with
  | nil => cases hr
  | cons r0 rest ih =>
    intro m
    rw [List.foldl_cons]
    rcases List.mem_cons.mp hr with h0 | hrest
    · subst h0
      obtain ⟨b0, hb0, hvb0⟩ := updateMaxValue_ge_val r field m v hf hv
      obtain ⟨b, hb, hb0b⟩ := foldl_max_some_le rest field _ b0 hb0
      exact ⟨b, hb, le_trans hvb0 hb0b⟩
    · exact ih hrest (updateMaxValue r0 field m)

/-- A successful run of the row-batch streaming loop returns exactly the
fold of _update_max_value over the streamed rows. -/
theorem syncLoop_ok_max (strat : ConflictStrategy) (field : Option String)
    (cancel : Nat → Bool) :
    ∀ (rows batch : List Row) (maxV : Option Int) (dt : DestTable)
      (synced ins sk checks : Nat) (d : DestTable) (m : Option Int)
      (s2 i2 k2 : Nat),
      syncLoop strat field cancel rows batch maxV dt synced ins sk checks =
        .ok d m s2 i2 k2 →
      m = rows.foldl (fun acc r => updateMaxValue r field acc) maxV := by
  intro rows
  induction rows with
  | nil =>
    intro batch maxV dt synced ins sk checks d m s2 i2 k2 h
    unfold syncLoop at h
    split at h
    · cases h; rfl
    · split at h
      · cases h
      · split at h
        · cases h
        · cases h; rfl
  | cons r rest ih =>
    intro batch maxV dt synced ins sk checks d m s2 i2 k2 h
    rw [List.foldl_cons]
    unfold syncLoop at h
    dsimp only at h
    split at h <;>
      first
        | exact ih _ _ _ _ _ _ _ _ _ _ _ _ h
        | cases h
        | (split at h <;>
            first
              | exact ih _ _ _ _ _ _ _ _ _ _ _ _ h
              | cases h
              | (split at h <;>
                  first
                    | exact ih _ _ _ _ _ _ _ _ _ _ _ _ h
                    | cases h))

/-- A failed row-batch sync leaves the table row, and so the watermark,
untouched: errors are raised before the final last_sync_value write. -/
theorem dmSync_err_table (job : DmJob) (tt : TableState) (rows : List Row)
    (dest : DestTable) (cancel : Nat → Bool) (e : SyncErr) (d : DestTable)
    (t2 : TableState)
    (h : syncTableData job tt rows dest cancel = .err e d t2) : t2 = tt := by
  unfold syncTableData at h
  dsimp only at h
  split at h
  · cases h; rfl
  · cases h

/-- After a successful row-batch sync the stored watermark is the maximum
incremental-field value seen over all emitted rows, the prior value being
kept when no row carried one. -/
theorem dmSync_ok_watermark (job : DmJob) (tt : TableState) (rows : List Row)
    (dest : DestTable) (cancel : Nat → Bool) (o : SyncOutcome)
    (hok : syncTableData job tt rows dest cancel = .ok o) :
    o.table.last_sync_value =
      (match emittedMax rows tt.incremental_field with
        | none => tt.last_sync_value
        | some v => some v) := by
  unfold syncTableData at hok
  dsimp only at hok
  split at hok
  · cases hok
  · rename_i d maxV synced ins sk heq
    have hm := syncLoop_ok_max job.conflict_strategy tt.incremental_field cancel
      rows [] none _ 0 0 0 0 d maxV synced ins sk heq
    cases hok
    rw [emittedMax, ← hm]
    rcases maxV with _ | v <;> rfl

/-- The row-batch INSERT strategy satisfies the watermark bound of §4.6.7:
after a successful sync, last_sync_value dominates every non-null
incremental-field value among the emitted rows. -/
theorem dmSync_watermark_ge (job : DmJob) (tt : TableState) (rows : List Row)
    (dest : DestTable) (cancel : Nat → Bool) (o : SyncOutcome) (r : Row)
    (v : Int)
    (hok : syncTableData job tt rows dest cancel = .ok o)
    (hr : r ∈ rows) (hf : pyTruthy tt.incremental_field = true)
    (hv : rowLookup r (tt.incremental_field.getD "") = some (some v)) :
    ∃ y, o.table.last_sync_value = some y ∧ v ≤ y := by
  have h1 := dmSync_ok_watermark job tt rows dest cancel o hok
  obtain ⟨b, hb, hvb⟩ :=
    foldl_max_ge rows tt.incremental_field r v hr hf hv none
  rw [h1, emittedMax, hb]
  exact ⟨b, rfl, hvb⟩

/-- A successful COPY sync returns the table row it was given: no statement
in CopyDataManager writes last_sync_value, whatever the inputs. -/
theorem copySync_table_unchanged (job : DmJob) (tt : TableState)
    (sourceRows : List Row) (dest : DestTable) (cancel : Nat → Bool)
    (o : SyncOutcome)
    (hok : copySyncTableData job tt sourceRows dest cancel = .ok o) :
    o.table = tt := by
  unfold copySyncTableData at hok
  split at hok <;> split at hok <;> dsimp only at hok <;>
    first
      | (cases hok <;> rfl)
      | (split at hok <;> (cases hok <;> rfl))

/-- Claim C1: after a successful incremental table sync the watermark is at
least the maximum emitted incremental-field value, for both transfer
strategies. The COPY strategy violates this: its _update_max_sync_value is
a stub returning current_max unchanged and nothing in CopyDataManager
writes last_sync_value, so an incremental AUTO_ID COPY sync that emits a
row with id 5 above the prior watermark 3 completes successfully and
leaves last_sync_value at 3 < 5. -/
theorem claim_C1 :
    copySyncTableData
      { sync_mode := .INCREMENTAL, conflict_strategy := .ERROR }
      { incremental_strategy := .AUTO_ID, incremental_field := some "id",
        last_sync_value := some 3 }
      [[("id", some 5)]]
      { rows := [], uniqueKey := none, primaryKeys := [] }
      (fun _ => false) =
    .ok ⟨{ rows := [[("id", some 5)]], uniqueKey := none, primaryKeys := [] },
         { incremental_strategy := .AUTO_ID, incremental_field := some "id",
           last_sync_value := some 3 },
         1, 0, 0⟩ ∧
    (3 : Int) < 5 := by
  constructor
  · rfl
  · decide

/-- Claim C2: two concurrent invocations of execute_sync_job for the same
job never both pass the lock-acquisition step: in every reachable state of
the interleaved two-invocation system at most one invocation is in its
critical section, and an invocation that returned early never created a
RunLog. -/
theorem claim_C2 (s : LockSys) (h : LockReach s) :
    ¬(s.p1.pc = .crit ∧ s.p2.pc = .crit) ∧
    (s.p1.pc = .early → s.p1.createdLog = false) ∧
    (s.p2.pc = .early → s.p2.createdLog = false) := by
  obtain ⟨-, h2, h3, h4⟩ := lockInv_of_reach s h
  exact ⟨h2, fun he => h3 (Or.inl he), fun he => h4 (Or.inl he)⟩

/-- Witness for claim C2 at the reachable state in which the first
invocation has just acquired the lock. -/
theorem claim_C2_witness :
    ¬((⟨true, ⟨.crit, true⟩, ⟨.start, false⟩⟩ : LockSys).p1.pc = LockPC.crit ∧
      (⟨true, ⟨.crit, true⟩, ⟨.start, false⟩⟩ : LockSys).p2.pc = LockPC.crit) ∧
    ((⟨true, ⟨.crit, true⟩, ⟨.start, false⟩⟩ : LockSys).p1.pc = LockPC.early →
      (⟨true, ⟨.crit, true⟩, ⟨.start, false⟩⟩ : LockSys).p1.createdLog = false) ∧
    ((⟨true, ⟨.crit, true⟩, ⟨.start, false⟩⟩ : LockSys).p2.pc = LockPC.early →
      (⟨true, ⟨.crit, true⟩, ⟨.start, false⟩⟩ : LockSys).p2.createdLog = false) :=
  claim_C2 ⟨true, ⟨.crit, true⟩, ⟨.start, false⟩⟩
    (LockReach.step lockInit _ LockReach.init
      (SysStep.left lockInit true ⟨.crit, true⟩ (ProcStep.acquire lockInit.p1 rfl)))

/-- Counterexample to claim C3: a StatusManager transition applied to a
record in the terminal state COMPLETED is not rejected: mark_failed
overwrites the control state with FAILED and reports success. -/
theorem claim_C3_counterexample :
    TaskControlStatus.isTerminal TaskControlStatus.COMPLETED = true ∧
    smMarkFailed (some ⟨.COMPLETED, false, 100⟩) =
      (some ⟨.FAILED, false, 100⟩, true) ∧
    (smMarkFailed (some ⟨.COMPLETED, false, 100⟩)).1 ≠
      some ⟨.COMPLETED, false, 100⟩ := by
  refine ⟨rfl, rfl, ?_⟩
  decide

/-- Claim C3 amended: the StatusController transition operations perform no
terminal-state check: applied to an existing record in a terminal state,
each one unconditionally overwrites the control state (RequestCancel to
STOP_REQUESTED, MarkCompleted to COMPLETED, MarkFailed to FAILED,
MarkStopped to STOPPED) and reports success; only a missing record is
rejected. -/
theorem claim_C3 (r : StatusRecord) (_h : r.status.isTerminal = true) :
    ((smRequestCancellation (some r)).1.map StatusRecord.status =
        some .STOP_REQUESTED ∧ (smRequestCancellation (some r)).2 = true) ∧
    ((smMarkCompleted (some r)).1.map StatusRecord.status = some .COMPLETED ∧
      (smMarkCompleted (some r)).2 = true) ∧
    ((smMarkFailed (some r)).1.map StatusRecord.status = some .FAILED ∧
      (smMarkFailed (some r)).2 = true) ∧
    ((smMarkStopped (some r)).1.map StatusRecord.status = some .STOPPED ∧
      (smMarkStopped (some r)).2 = true) ∧
    smMarkFailed none = (none, false) := by
  refine ⟨⟨rfl, rfl⟩, ⟨rfl, rfl⟩, ⟨rfl, rfl⟩, ⟨rfl, rfl⟩, rfl⟩

/-- Witness for claim C3 at a COMPLETED record. -/
theorem claim_C3_witness :
    ((smRequestCancellation (some ⟨.COMPLETED, false, 100⟩)).1.map StatusRecord.status =
        some .STOP_REQUESTED ∧
      (smRequestCancellation (some ⟨.COMPLETED, false, 100⟩)).2 = true) ∧
    ((smMarkCompleted (some ⟨.COMPLETED, false, 100⟩)).1.map StatusRecord.status =
        some .COMPLETED ∧
      (smMarkCompleted (some ⟨.COMPLETED, false, 100⟩)).2 = true) ∧
    ((smMarkFailed (some ⟨.COMPLETED, false, 100⟩)).1.map StatusRecord.status =
        some .FAILED ∧
      (smMarkFailed (some ⟨.COMPLETED, false, 100⟩)).2 = true) ∧
    ((smMarkStopped (some ⟨.COMPLETED, false, 100⟩)).1.map StatusRecord.status =
        some .STOPPED ∧
      (smMarkStopped (some ⟨.COMPLETED, false, 100⟩)).2 = true) ∧
    smMarkFailed none = (none, false) :=
  claim_C3 ⟨.COMPLETED, false, 100⟩ rfl

/-- Counterexample to claim C4: with conflict strategy SKIP and two source
rows colliding on the unique index, sync_table_data returns SUCCESS with
records_synced 2, not 1 (the loop adds the full batch length, counting the
skipped row as transferred), and the destination ends with zero rows, not
one: the first row's insert is rolled back when the block-exit COMMIT of
the batch transaction, aborted by the unique violation, performs a
rollback. The 1 and 1 are the successful_inserts and skipped_records
counters, which only reach the log. -/
theorem claim_C4_counterexample :
    syncTableData { sync_mode := .FULL, conflict_strategy := .SKIP }
      { incremental_strategy := .NONE, incremental_field := none,
        last_sync_value := none }
      [[("u", some 1), ("v", some 10)], [("u", some 1), ("v", some 20)]]
      { rows := [], uniqueKey := some "u", primaryKeys := [] }
      (fun _ => false) =
    .ok ⟨{ rows := [], uniqueKey := some "u", primaryKeys := [] },
         { incremental_strategy := .NONE, incremental_field := none,
           last_sync_value := none },
         2, 1, 1⟩ ∧
    (2 : Nat) ≠ 1 ∧
    (List.length ([] : List Row)) ≠ 1 := by
  refine ⟨rfl, by decide, by decide⟩

/-- Claim C4 amended: in the SKIP duplicate-unique-key scenario the run
ends SUCCESS and the counters record one successful insert and one
skipped row, but the RunLog records_transferred is 2 (skipped rows are
counted as transferred) and no row persists in the destination: the whole
batch shares the single transaction _batch_insert opens, the unique
violation aborts it, and the block-exit commit rolls every insert back. -/
theorem claim_C4 :
    runOneTable { sync_mode := .FULL, conflict_strategy := .SKIP }
      { incremental_strategy := .NONE, incremental_field := none,
        last_sync_value := none }
      [[("u", some 1), ("v", some 10)], [("u", some 1), ("v", some 20)]]
      { rows := [], uniqueKey := some "u", primaryKeys := [] }
      (fun _ => false) = (ExecutionStatus.SUCCESS, some 2) ∧
    batchInsert .SKIP { rows := [], uniqueKey := some "u", primaryKeys := [] }
      [[("u", some 1), ("v", some 10)], [("u", some 1), ("v", some 20)]] =
    .ok ({ rows := [], uniqueKey := some "u", primaryKeys := [] }, 1, 1) := by
  exact ⟨rfl, rfl⟩

/-- Claim C5: under INCREMENTAL mode with per-table strategy AUTO_ID and a
resolvable field (the explicit incremental_field, else the auto-detected
integer id column), the extraction query filters by field > watermark when
a watermark resolves and field IS NOT NULL otherwise, and orders ascending
by that field. -/
theorem claim_C5 (job : QueryJob) (tt : QueryTable)
    (dId dTs destMax : Option String) (f : String)
    (hm : job.sync_mode = SyncMode.INCREMENTAL)
    (hs : tt.incremental_strategy = IncrementalStrategy.AUTO_ID)
    (hf : pyOr tt.incremental_field dId = some f)
    (hft : pyTruthy (some f) = true) :
    buildSyncQuery job tt dId dTs destMax =
      "SELECT * FROM " ++ tt.schema_name ++ "." ++ tt.table_name ++
      " WHERE " ++
      (if pyTruthy (getLastSyncValue tt destMax) then
        f ++ " > " ++ (getLastSyncValue tt destMax).getD ""
      else f ++ " IS NOT NULL") ++
      (if pyTruthy (job.where_condition.map pyStrip) then
        " AND " ++ ("(" ++ pyStrip (job.where_condition.getD "") ++ ")")
      else "") ++
      " ORDER BY " ++ f := by
  unfold buildSyncQuery incrementalClause
  rw [hm, hs, hf]
  simp only [hft]
  by_cases hw : pyTruthy (getLastSyncValue tt destMax) <;>
    by_cases hg : pyTruthy (job.where_condition.map pyStrip) <;>
      refine String.ext ?_ <;>
        simp [hw, hg, joinAnd, Option.toList, String.data_append]

/-- Witness for claim C5: explicit field id, stored watermark 10, no global
WHERE. -/
theorem claim_C5_witness :
    buildSyncQuery ⟨.INCREMENTAL, none⟩
      ⟨"public", "users", .AUTO_ID, some "id", none, some "10"⟩
      none none none =
    "SELECT * FROM public.users WHERE id > 10 ORDER BY id" :=
  (claim_C5 ⟨.INCREMENTAL, none⟩
    ⟨"public", "users", .AUTO_ID, some "id", none, some "10"⟩
    none none none "id" rfl rfl (by decide) (by decide)).trans (by decide)

/-- Counterexample to claim C6: with an invalid key, EncryptionManager
initialization does not raise: it continues with a freshly generated key. -/
theorem claim_C6_counterexample :
    encryptionManagerSetup false = .ok .generated ∧
    ∀ e, encryptionManagerSetup false ≠ .error e :=
  ⟨rfl, fun _ h => Except.noConfusion h⟩

/-- Claim C6 amended: when the configured key is rejected by the Fernet
constructor, initialization logs a warning, generates a fresh key and
continues with it instead of failing fast. -/
theorem claim_C6 (keyValid : Bool) (h : keyValid = false) :
    encryptionManagerSetup keyValid = .ok .generated := by
  subst h; rfl

/-- Witness for claim C6 at an invalid key. -/
theorem claim_C6_witness : encryptionManagerSetup false = .ok .generated :=
  claim_C6 false rfl

/-- Counterexample to claim C7: the empty cron expression has 0 fields, yet
add_job does not raise: the blank-expression guard returns early with a
warning, so the job is skipped without an error. -/
theorem claim_C7_counterexample :
    (pySplitWs (pyStrip "")).length ≠ 5 ∧
    addJob { execution_mode := .SCHEDULED, cron_expression := some "" } =
      .skippedNoCron ∧
    ∀ m, addJob { execution_mode := .SCHEDULED, cron_expression := some "" } ≠
      .raised m := by
  refine ⟨by decide, rfl, fun m h => AddJobResult.noConfusion h⟩

/-- Claim C7 amended: for a SCHEDULED job whose cron expression is
non-blank and does not split into exactly 5 whitespace-separated fields,
add_job raises; a blank (empty or whitespace-only) expression is instead
skipped without raising and without registering the job. -/
theorem claim_C7 (c : String)
    (h1 : pyTruthy (some c) = true)
    (h2 : pyTruthy (some (pyStrip c)) = true)
    (h5 : (pySplitWs (pyStrip c)).length ≠ 5) :
    addJob { execution_mode := .SCHEDULED, cron_expression := some c } =
      .raised "Cron expression must have 5 parts" := by
  unfold addJob
  simp only [Option.map_some, h1, h2, Option.getD_some]
  rw [if_neg (by decide)]
  rw [if_neg (by simp [h1, h2])]
  unfold parseCronExpression
  rw [dif_neg h5]

/-- Witness for claim C7 at a 4-field cron expression. -/
theorem claim_C7_witness :
    addJob { execution_mode := .SCHEDULED, cron_expression := some "* * * *" } =
      .raised "Cron expression must have 5 parts" :=
  claim_C7 "* * * *" (by decide) (by decide) (by decide)

/-- Claim C8: on every terminal transition, success, cancellation and
failure alike, the finalize step sets Job.last_run_at to the finalization
time, and the run log carries the matching terminal status. -/
theorem claim_C8 (o : RunOutcome) (now : Nat) (s : EngineState) :
    (executeFinalize o now s).job.last_run_at = some now ∧
    (executeFinalize o now s).log_entry.status =
      (match o with
        | .success => ExecutionStatus.SUCCESS
        | .cancelled _ => ExecutionStatus.CANCELLED
        | .failed _ _ => ExecutionStatus.FAILED) := by
  cases o <;> simp [executeFinalize, finalizeExecution]

/-- Claim C9: check_cancellation_requested is total and returns true
exactly when the stored flag reads as True; a read error or a missing row
(scalar None) yields false, so a failing or absent status record never
cancels a run. -/
theorem claim_C9 (q : Except DbErr (Option Bool)) (e : DbErr) :
    (checkCancellationRequested q = true ↔ q = .ok (some true)) ∧
    checkCancellationRequested (.error e) = false ∧
    checkCancellationRequested (.ok none) = false := by
  refine ⟨?_, rfl, rfl⟩
  cases q with
  | error e2 => simp [checkCancellationRequested]
  | ok r =>
    cases r with
    | none => simp [checkCancellationRequested]
    | some b => cases b <;> simp [checkCancellationRequested]

/-- Claim C10: removing the last subscriber of a job discards the stored
progress snapshot, so get_current_progress afterwards returns the empty
event. -/
theorem claim_C10 (st : ProgressState) (jobId qid : Nat)
    (h : alGet st.clients jobId = some [qid]) :
    getCurrentProgress (removeClient st jobId qid) jobId = [] := by
  unfold removeClient
  rw [h]
  simp only [List.erase_cons_head, List.isEmpty_nil, if_true]
  unfold getCurrentProgress
  rw [alGet_alDel]
  rfl

/-- Witness for claim C10: one subscriber, a published snapshot, then the
subscriber leaves. -/
theorem claim_C10_witness :
    getCurrentProgress
      (removeClient
        (updateProgress (addClient ⟨[], []⟩ 7 42) 7 [("stage", "syncing")])
        7 42) 7 = [] :=
  claim_C10 (updateProgress (addClient ⟨[], []⟩ 7 42) 7 [("stage", "syncing")])
    7 42 (by decide)

end PgSync
